import Mathlib

/-!
Verification of the `hcl_api` service: a shallow embedding of its Pydantic
schemas (`app/schemas/terragrunt_example.py`), the JSON→HCL converter
(`app/library/json2hcl.py`) and the `/tf/vpc` route
(`app/routers/config_creation.py`), with theorems settling the spec's claims.
-/

namespace HclApi

/-- A JSON value, the wire format of request payloads and of Pydantic
`model_dump` output.  Objects keep insertion order, as Python dicts do. -/
inductive Json where
  | str (s : String)
  | num (n : Int)
  | bool (b : Bool)
  | null
  | arr (xs : List Json)
  | obj (kvs : List (String × Json))
deriving Repr

/-- One Pydantic validation error: the location (path of field names /
indices) and a message.  Mirrors the entries of `ValidationError.errors()`. -/
structure VErr where
  loc : List String
  msg : String
deriving Repr, DecidableEq

/-- Result of validating a fragment of the payload: either the typed value or
the accumulated list of errors (Pydantic collects all errors, it does not stop
at the first). -/
abbrev V (α : Type) := Except (List VErr) α

/-- Error-accumulating applicative combination, mirroring how Pydantic
validates every field of a model and reports all failures together. -/
def vApp : V (α → β) → V α → V β
  | .ok f, .ok a => .ok (f a)
  | .error e₁, .error e₂ => .error (e₁ ++ e₂)
  | .error e, .ok _ => .error e
  | .ok _, .error e => .error e

/-- Python `dict.get`: first binding of the key, if any. -/
def lookupKey (o : List (String × Json)) (k : String) : Option Json :=
  (o.find? (fun p => p.1 == k)).map (fun p => p.2)

/-- Python `dict[k] = v`: replace in place when the key exists, append
otherwise (insertion order preserved). -/
def setKey (o : List (String × Json)) (k : String) (v : Json) :
    List (String × Json) :=
  if o.any (fun p => p.1 == k) then
    o.map (fun p => if p.1 == k then (k, v) else p)
  else
    o ++ [(k, v)]

/-- Validate a `str`-annotated field. -/
def vStr (loc : List String) : Json → V String
  | .str s => .ok s
  | _ => .error [⟨loc, "Input should be a valid string"⟩]

/-- Validate a `bool`-annotated field. -/
def vBool (loc : List String) : Json → V Bool
  | .bool b => .ok b
  | _ => .error [⟨loc, "Input should be a valid boolean"⟩]

/-- Validate a `str | None`-annotated field. -/
def vOptStr (loc : List String) : Json → V (Option String)
  | .null => .ok none
  | .str s => .ok (some s)
  | _ => .error [⟨loc, "Input should be a valid string"⟩]

/-- Validate each element of a JSON array, recording its index in the error
location, accumulating errors across elements. -/
def vListIdx (loc : List String) (f : List String → Json → V α) :
    Nat → List Json → V (List α)
  | _, [] => .ok []
  | i, x :: xs =>
      vApp (vApp (.ok List.cons) (f (loc ++ [toString i]) x))
        (vListIdx loc f (i + 1) xs)

/-- Validate a `list[str]`-annotated field. -/
def vStrList (loc : List String) : Json → V (List String)
  | .arr xs => vListIdx loc (fun l j => vStr l j) 0 xs
  | _ => .error [⟨loc, "Input should be a valid list"⟩]

/-- Validate every value of a JSON object as a string, keeping key order. -/
def vStrDictEntries (loc : List String) : List (String × Json) →
    V (List (String × String))
  | [] => .ok []
  | (k, v) :: kvs =>
      vApp
        (vApp (.ok List.cons)
          (vApp (.ok (fun s => (k, s))) (vStr (loc ++ [k]) v)))
        (vStrDictEntries loc kvs)

/-- Validate a `dict[str, str]`-annotated field. -/
def vStrDict (loc : List String) : Json → V (List (String × String))
  | .obj kvs => vStrDictEntries loc kvs
  | _ => .error [⟨loc, "Input should be a valid dictionary"⟩]

/-- A model field with a declared default: absent means the default, present
means validated. -/
def optField (o : List (String × Json)) (k : String) (d : α)
    (f : Json → V α) : V α :=
  match lookupKey o k with
  | none => .ok d
  | some j => f j

/-- A required model field: absent is a "Field required" error. -/
def reqField (loc : List String) (o : List (String × Json)) (k : String)
    (f : Json → V α) : V α :=
  match lookupKey o k with
  | none => .error [⟨loc ++ [k], "Field required"⟩]
  | some j => f j

/-! ## The Pydantic models of `app/schemas/terragrunt_example.py` -/

/-- `Include`: the Terragrunt include block.  `path` is
`Literal["find_in_parent_folders()"] | str` with the sentinel as default,
which accepts any string. -/
structure Include where
  path : String
deriving Repr, DecidableEq

/-- `Hook`: hook run before/after specific Terraform commands. -/
structure Hook where
  name : String
  commands : List String
  execute : List String
  run_on_error : Bool
  working_dir : Option String
  env_vars : List (String × String)
deriving Repr, DecidableEq

/-- `ExtraArguments`: additional CLI args/env for specific commands. -/
structure ExtraArguments where
  name : String
  commands : List String
  arguments : List String
  optional_var_files : List String
  env_vars : List (String × String)
deriving Repr, DecidableEq

/-- `Terraform`: source configuration for this module. -/
structure Terraform where
  source : String
  include_in_copy : List String
  extra_arguments : List ExtraArguments
  before_hook : List Hook
  after_hook : List Hook
deriving Repr, DecidableEq

/-- `Inputs`: inputs passed to the Terraform module via Terragrunt. -/
structure Inputs where
  vpc_name : String
  vpc_cidr : String
  enable_dns_support : Bool
  public_subnets : List String
  tags : List (String × String)
deriving Repr, DecidableEq

/-- `TerragruntConfig`: aggregates include, terraform and inputs.  The
Python field is named `include`; that is a keyword here, so the field is
`incl` while the JSON key stays `"include"`. -/
structure TerragruntConfig where
  incl : Include
  terraform : Terraform
  inputs : Inputs
deriving Repr, DecidableEq

/-- `VPC`: the request wrapper, an output path plus the Terragrunt module. -/
structure VPC where
  conf_path : String
  terragrunt : TerragruntConfig
deriving Repr, DecidableEq

/-- Default of `Terraform.source` as declared in the schema. -/
def defaultSource : String :=
  "git::git@github.com:my-org/terraform-modules.git//vpc?ref=v1.2.0"

/-- The include-path sentinel. -/
def sentinel : String := "find_in_parent_folders()"

/-! ## Validators, one per model

Each mirrors Pydantic's model validation: the input must be an object; each
declared field is looked up by name, validated if present, replaced by its
declared default if absent (or reported missing, when required); errors from
all fields accumulate.  Unknown keys are ignored (Pydantic's default
`extra="ignore"`). -/

/-- Validate an `Include` payload (`terragrunt_example.py`, class Include).
`path` is `Literal["find_in_parent_folders()"] | str`, default the sentinel:
any string is accepted. -/
def validateInclude (loc : List String) : Json → V Include
  | .obj o =>
      vApp (.ok Include.mk) (optField o "path" sentinel (vStr (loc ++ ["path"])))
  | _ => .error [⟨loc, "Input should be a valid dictionary or instance of Include"⟩]

/-- Validate a `Hook` payload (class Hook): `name` required, lists and
mapping default empty, `run_on_error` defaults false, `working_dir` defaults
to null. -/
def validateHook (loc : List String) : Json → V Hook
  | .obj o =>
      vApp
        (vApp
          (vApp
            (vApp
              (vApp
                (vApp (.ok Hook.mk)
                  (reqField loc o "name" (vStr (loc ++ ["name"]))))
                (optField o "commands" [] (vStrList (loc ++ ["commands"]))))
              (optField o "execute" [] (vStrList (loc ++ ["execute"]))))
            (optField o "run_on_error" false (vBool (loc ++ ["run_on_error"]))))
          (optField o "working_dir" none (vOptStr (loc ++ ["working_dir"]))))
        (optField o "env_vars" [] (vStrDict (loc ++ ["env_vars"])))
  | _ => .error [⟨loc, "Input should be a valid dictionary or instance of Hook"⟩]

/-- Validate an `ExtraArguments` payload (class ExtraArguments): `name`
required, all lists and the mapping default empty. -/
def validateExtraArguments (loc : List String) : Json → V ExtraArguments
  | .obj o =>
      vApp
        (vApp
          (vApp
            (vApp
              (vApp (.ok ExtraArguments.mk)
                (reqField loc o "name" (vStr (loc ++ ["name"]))))
              (optField o "commands" [] (vStrList (loc ++ ["commands"]))))
            (optField o "arguments" [] (vStrList (loc ++ ["arguments"]))))
          (optField o "optional_var_files" []
            (vStrList (loc ++ ["optional_var_files"]))))
        (optField o "env_vars" [] (vStrDict (loc ++ ["env_vars"])))
  | _ => .error [⟨loc, "Input should be a valid dictionary or instance of ExtraArguments"⟩]

/-- Validate a `list[Hook]` field. -/
def vHookList (loc : List String) : Json → V (List Hook)
  | .arr xs => vListIdx loc validateHook 0 xs
  | _ => .error [⟨loc, "Input should be a valid list"⟩]

/-- Validate a `list[ExtraArguments]` field. -/
def vExtraArgumentsList (loc : List String) : Json → V (List ExtraArguments)
  | .arr xs => vListIdx loc validateExtraArguments 0 xs
  | _ => .error [⟨loc, "Input should be a valid list"⟩]

/-- Validate a `Terraform` payload (class Terraform): `source` has a declared
default (the git URL), the lists default empty. -/
def validateTerraform (loc : List String) : Json → V Terraform
  | .obj o =>
      vApp
        (vApp
          (vApp
            (vApp
              (vApp (.ok Terraform.mk)
                (optField o "source" defaultSource (vStr (loc ++ ["source"]))))
              (optField o "include_in_copy" []
                (vStrList (loc ++ ["include_in_copy"]))))
            (optField o "extra_arguments" []
              (vExtraArgumentsList (loc ++ ["extra_arguments"]))))
          (optField o "before_hook" [] (vHookList (loc ++ ["before_hook"]))))
        (optField o "after_hook" [] (vHookList (loc ++ ["after_hook"])))
  | _ => .error [⟨loc, "Input should be a valid dictionary or instance of Terraform"⟩]

/-- The declared defaults of `Inputs` (class Inputs). -/
def defaultInputs : Inputs :=
  { vpc_name := "production-vpc"
    vpc_cidr := "10.0.0.0/16"
    enable_dns_support := true
    public_subnets := ["10.0.1.0/24", "10.0.2.0/24"]
    tags := [("project", "web-app"), ("environment", "prod")] }

/-- Validate an `Inputs` payload (class Inputs): every field has a declared
default, several of them non-empty. -/
def validateInputs (loc : List String) : Json → V Inputs
  | .obj o =>
      vApp
        (vApp
          (vApp
            (vApp
              (vApp (.ok Inputs.mk)
                (optField o "vpc_name" defaultInputs.vpc_name
                  (vStr (loc ++ ["vpc_name"]))))
              (optField o "vpc_cidr" defaultInputs.vpc_cidr
                (vStr (loc ++ ["vpc_cidr"]))))
            (optField o "enable_dns_support" defaultInputs.enable_dns_support
              (vBool (loc ++ ["enable_dns_support"]))))
          (optField o "public_subnets" defaultInputs.public_subnets
            (vStrList (loc ++ ["public_subnets"]))))
        (optField o "tags" defaultInputs.tags (vStrDict (loc ++ ["tags"])))
  | _ => .error [⟨loc, "Input should be a valid dictionary or instance of Inputs"⟩]

/-- The fully defaulted `Include` (its `default_factory=Include`). -/
def defaultInclude : Include := ⟨sentinel⟩

/-- The fully defaulted `Terraform` (its `default_factory=Terraform`). -/
def defaultTerraform : Terraform := ⟨defaultSource, [], [], [], []⟩

/-- Validate a `TerragruntConfig` payload (class TerragruntConfig): each of
the three sub-models has a `default_factory` building the fully defaulted
sub-model. -/
def validateTerragruntConfig (loc : List String) : Json → V TerragruntConfig
  | .obj o =>
      vApp
        (vApp
          (vApp (.ok TerragruntConfig.mk)
            (optField o "include" defaultInclude
              (validateInclude (loc ++ ["include"]))))
          (optField o "terraform" defaultTerraform
            (validateTerraform (loc ++ ["terraform"]))))
        (optField o "inputs" defaultInputs
          (validateInputs (loc ++ ["inputs"])))
  | _ => .error [⟨loc, "Input should be a valid dictionary or instance of TerragruntConfig"⟩]

/-- The fully defaulted `TerragruntConfig`. -/
def defaultTerragruntConfig : TerragruntConfig :=
  ⟨defaultInclude, defaultTerraform, defaultInputs⟩

/-- Validate a `VPC` payload (class VPC): `conf_path` defaults to
`"/tmp/terragrunt_vpc.hcl"`, `terragrunt` defaults to the fully defaulted
`TerragruntConfig`. -/
def validateVPC : Json → V VPC
  | .obj o =>
      vApp
        (vApp (.ok VPC.mk)
          (optField o "conf_path" "/tmp/terragrunt_vpc.hcl"
            (vStr ["conf_path"])))
        (optField o "terragrunt" defaultTerragruntConfig
          (validateTerragruntConfig ["terragrunt"]))
  | _ => .error [⟨[], "Input should be a valid dictionary or instance of VPC"⟩]

/-! ## `model_dump`: the Pydantic models back to plain data

Field order follows declaration order, as Pydantic v2's `model_dump` does. -/

/-- Dump a `list[str]` value. -/
def dumpStrList (xs : List String) : Json := .arr (xs.map .str)

/-- Dump a `dict[str, str]` value. -/
def dumpStrDict (kvs : List (String × String)) : Json :=
  .obj (kvs.map (fun p => (p.1, .str p.2)))

/-- `Include.model_dump()`. -/
def Include.model_dump (i : Include) : Json := .obj [("path", .str i.path)]

/-- `Hook.model_dump()`. -/
def Hook.model_dump (h : Hook) : Json :=
  .obj
    [("name", .str h.name),
     ("commands", dumpStrList h.commands),
     ("execute", dumpStrList h.execute),
     ("run_on_error", .bool h.run_on_error),
     ("working_dir", match h.working_dir with | none => .null | some s => .str s),
     ("env_vars", dumpStrDict h.env_vars)]

/-- `ExtraArguments.model_dump()`. -/
def ExtraArguments.model_dump (e : ExtraArguments) : Json :=
  .obj
    [("name", .str e.name),
     ("commands", dumpStrList e.commands),
     ("arguments", dumpStrList e.arguments),
     ("optional_var_files", dumpStrList e.optional_var_files),
     ("env_vars", dumpStrDict e.env_vars)]

/-- `Terraform.model_dump()`. -/
def Terraform.model_dump (t : Terraform) : Json :=
  .obj
    [("source", .str t.source),
     ("include_in_copy", dumpStrList t.include_in_copy),
     ("extra_arguments", .arr (t.extra_arguments.map ExtraArguments.model_dump)),
     ("before_hook", .arr (t.before_hook.map Hook.model_dump)),
     ("after_hook", .arr (t.after_hook.map Hook.model_dump))]

/-- `Inputs.model_dump()`. -/
def Inputs.model_dump (i : Inputs) : Json :=
  .obj
    [("vpc_name", .str i.vpc_name),
     ("vpc_cidr", .str i.vpc_cidr),
     ("enable_dns_support", .bool i.enable_dns_support),
     ("public_subnets", dumpStrList i.public_subnets),
     ("tags", dumpStrDict i.tags)]

/-- `TerragruntConfig.model_dump()` (JSON key `"include"` for field `incl`). -/
def TerragruntConfig.model_dump (c : TerragruntConfig) : Json :=
  .obj
    [("include", c.incl.model_dump),
     ("terraform", c.terraform.model_dump),
     ("inputs", c.inputs.model_dump)]

/-- `VPC.model_dump()`. -/
def VPC.model_dump (v : VPC) : Json :=
  .obj
    [("conf_path", .str v.conf_path),
     ("terragrunt", v.terragrunt.model_dump)]

/-! ## The HCL2 encoder (`hcl2.api.reverse_transform` / `writes`)

The `hcl2` package is an external dependency, not part of this repository;
the spec treats it as a black-box encoder from a tree whose top-level keys
are block names to HCL2 text with one top-level block per key, in order,
strings quoted, booleans unquoted, lists as `[...]`, maps as `\x7b k = v \x7d`,
and no other top-level content. -/

/-- One top-level HCL block of the AST built by `reverse_transform`. -/
structure HclBlock where
  name : String
  body : Json
deriving Repr

/-- Modelled from the spec: `hcl2.api.reverse_transform` turns a mapping whose
top-level keys are block names into an HCL2 AST with one top-level block per
key, in order. -/
def reverse_transform : Json → List HclBlock
  | .obj o => o.map (fun p => ⟨p.1, p.2⟩)
  | _ => []

mutual
/-- Modelled from the spec: render one scalar/list/map value, strings quoted,
booleans and numbers unquoted, lists as `[...]`, maps as `\x7b k = v, ... \x7d`. -/
def renderJson : Json → String
  | .str s => "\"" ++ s ++ "\""
  | .num n => toString n
  | .bool b => if b then "true" else "false"
  | .null => "null"
  | .arr xs => "[" ++ String.intercalate ", " (renderJsonList xs) ++ "]"
  | .obj kvs => "\x7b" ++ String.intercalate ", " (renderJsonEntries kvs) ++ "\x7d"

/-- Render every element of a JSON array. -/
def renderJsonList : List Json → List String
  | [] => []
  | x :: xs => renderJson x :: renderJsonList xs

/-- Render every `k = v` entry of a JSON map. -/
def renderJsonEntries : List (String × Json) → List String
  | [] => []
  | (k, v) :: kvs => (k ++ " = " ++ renderJson v) :: renderJsonEntries kvs
end

/-- Modelled from the spec: render one top-level block: block name followed by
the body's attributes, one per line. -/
def renderBlock (b : HclBlock) : String :=
  match b.body with
  | .obj kvs =>
      b.name ++ " \x7b\n" ++
        String.join
          (kvs.map (fun p => "  " ++ p.1 ++ " = " ++ renderJson p.2 ++ "\n")) ++
        "\x7d\n"
  | j => b.name ++ " = " ++ renderJson j ++ "\n"

/-- Modelled from the spec: `hcl2.api.writes` serializes the AST to text, one
block after the other, no header, footer or comments. -/
def writes (bs : List HclBlock) : String :=
  String.join (bs.map renderBlock)

/-! ## The converter (`app/library/json2hcl.py`) -/

/-- `json_data.get("include")` normalization of
`generate_terragrunt_hcl_from_model`: if the dumped tree's `include` entry is
a dict, overwrite its `path` with the sentinel; otherwise replace the whole
entry with `\x7b"path": sentinel\x7d`. -/
def normalizeIncludeObj (o : List (String × Json)) : List (String × Json) :=
  match lookupKey o "include" with
  | some (.obj ib) => setKey o "include" (.obj (setKey ib "path" (.str sentinel)))
  | _ => setKey o "include" (.obj [("path", .str sentinel)])

/-- The `json_data` dict after `model_dump` and include normalization, i.e.
the tree handed to `reverse_transform`. -/
def normalizedTree (model : TerragruntConfig) : List (String × Json) :=
  match model.model_dump with
  | .obj o => normalizeIncludeObj o
  | _ => []

/-- Result of `generate_terragrunt_hcl_from_model`: the text written to the
output file and the string returned to the caller. -/
structure GenResult where
  file_content : String
  returned : String
deriving Repr, DecidableEq

/-- `generate_terragrunt_hcl_from_model`: dump the model, force the include
path to the sentinel, encode to HCL2 text, write that text to the file, and
return the same text. -/
def generate_terragrunt_hcl_from_model (model : TerragruntConfig) : GenResult :=
  let hcl_content := writes (reverse_transform (.obj (normalizedTree model)))
  ⟨hcl_content, hcl_content⟩

/-! ## The route (`app/routers/config_creation.py`) -/

/-- Modelled from the spec: `os.path.expanduser` — a leading `~` is replaced
by the invoking user's home directory. -/
def expanduser (home p : String) : String :=
  match p.data with
  | '~' :: rest => home ++ String.mk rest
  | _ => p

/-- Modelled from the spec: `Path(...).resolve()` — the path is made absolute
against the working directory (symlink resolution is not modelled; absolute
inputs pass through unchanged). -/
def resolvePath (cwd p : String) : String :=
  match p.data with
  | '/' :: _ => p
  | _ => cwd ++ "/" ++ p

/-- The JSON body of the 200 response of `POST /tf/vpc`. -/
structure Response where
  hcl_path : String
  hcl : String
  payload : Json
deriving Repr

/-- `create_vpc`: resolve the destination path, generate the HCL from the
nested Terragrunt model, and answer with the path, the HCL text and the echo
of the validated payload.  `home` and `cwd` stand for the environment used by
`expanduser`/`resolve`. -/
def create_vpc (home cwd : String) (payload : VPC) : Response :=
  let output_path := resolvePath cwd (expanduser home payload.conf_path)
  let hcl_content := (generate_terragrunt_hcl_from_model payload.terragrunt).returned
  { hcl_path := output_path
    hcl := hcl_content
    payload := payload.model_dump }

/-! ## Helpers for the statements -/

/-- The `include.path` value of a dumped/normalized configuration tree, the
observation a generic HCL2 parser would make on the `include` block. -/
def treeIncludePath (o : List (String × Json)) : Option Json :=
  match lookupKey o "include" with
  | some (.obj ib) => lookupKey ib "path"
  | _ => none

/-- The `terragrunt.include.path` value inside a dumped `VPC` payload. -/
def dumpIncludePath : Json → Option Json
  | .obj o =>
      match lookupKey o "terragrunt" with
      | some (.obj t) => treeIncludePath t
      | _ => none
  | _ => none

/-- Inversion for the accumulating applicative: a successful combination comes
from successful parts. -/
theorem vApp_ok {α β : Type} {f : V (α → β)} {a : V α} {b : β}
    (h : vApp f a = .ok b) : ∃ g x, f = .ok g ∧ a = .ok x ∧ g x = b := by
  match f, a with
  | .ok g, .ok x => exact ⟨g, x, rfl, rfl, Except.ok.inj h⟩
  | .error e₁, .error e₂ => simp [vApp] at h
  | .error e, .ok _ => simp [vApp] at h
  | .ok _, .error e => simp [vApp] at h

/-! ## Claims -/

/-- Claim C1: for every validated configuration, the tree encoded into the
response's `hcl` text (and written to the file) carries
`include.path = "find_in_parent_folders()"`, whatever `include.path` the
request supplied: the converter overwrites it unconditionally. -/
theorem claim_C1 (m : TerragruntConfig) :
    treeIncludePath (normalizedTree m) = some (.str "find_in_parent_folders()") ∧
    (reverse_transform (.obj (normalizedTree m))).head? =
      some ⟨"include", .obj [("path", .str "find_in_parent_folders()")]⟩ ∧
    (generate_terragrunt_hcl_from_model m).file_content =
      writes (reverse_transform (.obj (normalizedTree m))) ∧
    (generate_terragrunt_hcl_from_model m).returned =
      writes (reverse_transform (.obj (normalizedTree m))) :=
  ⟨rfl, rfl, rfl, rfl⟩

/-- Claim C3 (amended): `Include.path` accepts any string, the empty string
included, and an absent `path` defaults to the non-empty sentinel — there is
no non-emptiness validation. -/
theorem claim_C3 (loc : List String) (s : String) :
    validateInclude loc (.obj [("path", .str s)]) = .ok ⟨s⟩ ∧
    validateInclude loc (.obj []) = .ok ⟨sentinel⟩ :=
  ⟨rfl, rfl⟩

/-- Claim C3, counterexample to the original statement: a payload whose
`include.path` is the empty string passes validation and yields an `Include`
whose `path` is the empty string. -/
theorem claim_C3_counterexample :
    validateInclude ["terragrunt", "include"] (.obj [("path", .str "")]) =
      .ok ⟨""⟩ :=
  rfl

/-- Claim C5: the text written to the destination file and the string
returned in the response's `hcl` field are the same string. -/
theorem claim_C5 (home cwd : String) (payload : VPC) :
    (create_vpc home cwd payload).hcl =
      (generate_terragrunt_hcl_from_model payload.terragrunt).file_content :=
  rfl

/-- Claim C6: for every validated configuration the generated document has
exactly the three top-level blocks `include`, `terraform`, `inputs`, in that
order, and the emitted text is exactly the concatenation of those three
blocks' renderings — no header, footer or comments. -/
theorem claim_C6 (m : TerragruntConfig) :
    (reverse_transform (.obj (normalizedTree m))).map HclBlock.name =
      ["include", "terraform", "inputs"] ∧
    (generate_terragrunt_hcl_from_model m).file_content =
      String.join
        ((reverse_transform (.obj (normalizedTree m))).map renderBlock) :=
  ⟨rfl, rfl⟩

/-- Claim C10: the empty JSON object is a valid request: validation succeeds
and every field of the resulting graph carries its declared default,
including `conf_path` and `terraform.source`. -/
theorem claim_C10 :
    validateVPC (.obj []) =
      .ok
        { conf_path := "/tmp/terragrunt_vpc.hcl"
          terragrunt :=
            { incl := ⟨"find_in_parent_folders()"⟩
              terraform :=
                ⟨"git::git@github.com:my-org/terraform-modules.git//vpc?ref=v1.2.0",
                  [], [], [], []⟩
              inputs :=
                ⟨"production-vpc", "10.0.0.0/16", true,
                  ["10.0.1.0/24", "10.0.2.0/24"],
                  [("project", "web-app"), ("environment", "prod")]⟩ } } :=
  rfl

/-- Claim C2 (amended): a payload whose `terraform.source` is absent is not
rejected — `source` has a declared default, so whenever validation succeeds
on such a payload the resulting `Terraform` carries the default source and
the converter is reached. -/
theorem claim_C2 (loc : List String) (o : List (String × Json)) (t : Terraform)
    (hAbsent : lookupKey o "source" = none)
    (hOk : validateTerraform loc (.obj o) = .ok t) :
    t.source = defaultSource := by
  simp only [validateTerraform, optField, hAbsent] at hOk
  obtain ⟨g4, x4, h4, _, hb4⟩ := vApp_ok hOk
  obtain ⟨g3, x3, h3, _, hb3⟩ := vApp_ok h4
  obtain ⟨g2, x2, h2, _, hb2⟩ := vApp_ok h3
  obtain ⟨g1, x1, h1, _, hb1⟩ := vApp_ok h2
  obtain ⟨g0, x0, h0, hx0, hb0⟩ := vApp_ok h1
  cases Except.ok.inj h0
  cases Except.ok.inj hx0
  subst hb0 hb1 hb2 hb3 hb4
  rfl

/-- Claim C2, witness: the empty `terraform` payload has no `source` key,
validates to the fully defaulted `Terraform`, and that model's source is the
declared default. -/
theorem claim_C2_witness : defaultTerraform.source = defaultSource :=
  claim_C2 ["terragrunt", "terraform"] [] defaultTerraform rfl rfl

/-- Claim C2, counterexample to the original statement: the payload
`{"terragrunt": {"terraform": {}}}` omits `terragrunt.terraform.source`, yet
validation succeeds (no 4xx, the converter is reached) with the declared
default source. -/
theorem claim_C2_counterexample :
    validateVPC (.obj [("terragrunt", .obj [("terraform", .obj [])])]) =
      .ok ⟨"/tmp/terragrunt_vpc.hcl", defaultTerragruntConfig⟩ :=
  rfl

/-- Claim C4 (amended): a list/mapping field absent from the payload is
populated with its declared default, never null: the empty list/mapping for
every such field of `Hook`, `ExtraArguments` and `Terraform`, and the
declared non-empty defaults for `Inputs.public_subnets` and `Inputs.tags`. -/
theorem claim_C4 :
    (∀ loc o hk, lookupKey o "commands" = none → lookupKey o "execute" = none →
      lookupKey o "env_vars" = none → validateHook loc (.obj o) = .ok hk →
      hk.commands = [] ∧ hk.execute = [] ∧ hk.env_vars = []) ∧
    (∀ loc o ea, lookupKey o "commands" = none → lookupKey o "arguments" = none →
      lookupKey o "optional_var_files" = none → lookupKey o "env_vars" = none →
      validateExtraArguments loc (.obj o) = .ok ea →
      ea.commands = [] ∧ ea.arguments = [] ∧ ea.optional_var_files = [] ∧
        ea.env_vars = []) ∧
    (∀ loc o tf, lookupKey o "include_in_copy" = none →
      lookupKey o "extra_arguments" = none → lookupKey o "before_hook" = none →
      lookupKey o "after_hook" = none →
      validateTerraform loc (.obj o) = .ok tf →
      tf.include_in_copy = [] ∧ tf.extra_arguments = [] ∧
        tf.before_hook = [] ∧ tf.after_hook = []) ∧
    (∀ loc o inp, lookupKey o "public_subnets" = none →
      lookupKey o "tags" = none → validateInputs loc (.obj o) = .ok inp →
      inp.public_subnets = ["10.0.1.0/24", "10.0.2.0/24"] ∧
        inp.tags = [("project", "web-app"), ("environment", "prod")]) := by
  refine ⟨?_, ?_, ?_, ?_⟩
  · intro loc o hk hc he hv hOk
    simp only [validateHook, optField, hc, he, hv] at hOk
    obtain ⟨g5, x5, h5, hx5, hb5⟩ := vApp_ok hOk
    obtain ⟨g4, x4, h4, _, hb4⟩ := vApp_ok h5
    obtain ⟨g3, x3, h3, _, hb3⟩ := vApp_ok h4
    obtain ⟨g2, x2, h2, hx2, hb2⟩ := vApp_ok h3
    obtain ⟨g1, x1, h1, hx1, hb1⟩ := vApp_ok h2
    obtain ⟨g0, x0, h0, _, hb0⟩ := vApp_ok h1
    cases Except.ok.inj h0
    cases Except.ok.inj hx1
    cases Except.ok.inj hx2
    cases Except.ok.inj hx5
    subst hb0 hb1 hb2 hb3 hb4 hb5
    exact ⟨rfl, rfl, rfl⟩
  · intro loc o ea hc ha ho hv hOk
    simp only [validateExtraArguments, optField, hc, ha, ho, hv] at hOk
    obtain ⟨g4, x4, h4, hx4, hb4⟩ := vApp_ok hOk
    obtain ⟨g3, x3, h3, hx3, hb3⟩ := vApp_ok h4
    obtain ⟨g2, x2, h2, hx2, hb2⟩ := vApp_ok h3
    obtain ⟨g1, x1, h1, hx1, hb1⟩ := vApp_ok h2
    obtain ⟨g0, x0, h0, _, hb0⟩ := vApp_ok h1
    cases Except.ok.inj h0
    cases Except.ok.inj hx1
    cases Except.ok.inj hx2
    cases Except.ok.inj hx3
    cases Except.ok.inj hx4
    subst hb0 hb1 hb2 hb3 hb4
    exact ⟨rfl, rfl, rfl, rfl⟩
  · intro loc o tf hi hx hb ha hOk
    simp only [validateTerraform, optField, hi, hx, hb, ha] at hOk
    obtain ⟨g4, x4, h4, hx4, hb4⟩ := vApp_ok hOk
    obtain ⟨g3, x3, h3, hx3, hb3⟩ := vApp_ok h4
    obtain ⟨g2, x2, h2, hx2, hb2⟩ := vApp_ok h3
    obtain ⟨g1, x1, h1, hx1, hb1⟩ := vApp_ok h2
    obtain ⟨g0, x0, h0, _, hb0⟩ := vApp_ok h1
    cases Except.ok.inj h0
    cases Except.ok.inj hx1
    cases Except.ok.inj hx2
    cases Except.ok.inj hx3
    cases Except.ok.inj hx4
    subst hb0 hb1 hb2 hb3 hb4
    exact ⟨rfl, rfl, rfl, rfl⟩
  · intro loc o inp hp ht hOk
    simp only [validateInputs, optField, hp, ht] at hOk
    obtain ⟨g4, x4, h4, hx4, hb4⟩ := vApp_ok hOk
    obtain ⟨g3, x3, h3, hx3, hb3⟩ := vApp_ok h4
    obtain ⟨g2, x2, h2, _, hb2⟩ := vApp_ok h3
    obtain ⟨g1, x1, h1, _, hb1⟩ := vApp_ok h2
    obtain ⟨g0, x0, h0, _, hb0⟩ := vApp_ok h1
    cases Except.ok.inj h0
    cases Except.ok.inj hx3
    cases Except.ok.inj hx4
    subst hb0 hb1 hb2 hb3 hb4
    exact ⟨rfl, rfl⟩

/-- Claim C4, witness: a hook payload carrying only `name` validates with
empty `commands`, `execute` and `env_vars`. -/
theorem claim_C4_witness :
    (Hook.mk "fmt" [] [] false none []).commands = [] ∧
    (Hook.mk "fmt" [] [] false none []).execute = [] ∧
    (Hook.mk "fmt" [] [] false none []).env_vars = [] :=
  claim_C4.1 [] [("name", .str "fmt")] (Hook.mk "fmt" [] [] false none [])
    rfl rfl rfl rfl

/-- Claim C4, counterexample to the original statement: `Inputs` validated
from the empty payload populates the absent list field `public_subnets` and
the absent mapping field `tags` with non-empty declared defaults, not with
the empty list/mapping. -/
theorem claim_C4_counterexample :
    validateInputs ["terragrunt", "inputs"] (.obj []) = .ok defaultInputs ∧
    defaultInputs.public_subnets ≠ [] ∧ defaultInputs.tags ≠ [] :=
  ⟨rfl, by decide, by decide⟩

/-- Claim C8: the response (in particular the generated HCL content) is a
deterministic function of the request payload: two validations of the same
JSON body yield models whose conversion and response are identical — the
converter embeds no timestamp or randomness. -/
theorem claim_C8 (home cwd : String) (j : Json) (m m' : VPC)
    (h : validateVPC j = .ok m) (h' : validateVPC j = .ok m') :
    generate_terragrunt_hcl_from_model m.terragrunt =
      generate_terragrunt_hcl_from_model m'.terragrunt ∧
    create_vpc home cwd m = create_vpc home cwd m' := by
  cases Except.ok.inj (h.symm.trans h')
  exact ⟨rfl, rfl⟩

/-- Claim C8, witness: two validations of the empty-object request give the
same conversion result and the same response. -/
theorem claim_C8_witness :
    generate_terragrunt_hcl_from_model
        (VPC.mk "/tmp/terragrunt_vpc.hcl" defaultTerragruntConfig).terragrunt =
      generate_terragrunt_hcl_from_model
        (VPC.mk "/tmp/terragrunt_vpc.hcl" defaultTerragruntConfig).terragrunt :=
  (claim_C8 "/root" "/app" (.obj [])
    (VPC.mk "/tmp/terragrunt_vpc.hcl" defaultTerragruntConfig)
    (VPC.mk "/tmp/terragrunt_vpc.hcl" defaultTerragruntConfig) rfl rfl).1

/-- Claim C9: the response's `payload` field echoes the validated model
unchanged — in particular the caller's `include.path` survives there even
when it differs from the sentinel — while the tree encoded into `hcl`
carries the sentinel: the override touches only the transient dumped copy. -/
theorem claim_C9 (home cwd : String) (v : VPC)
    (_hNe : v.terragrunt.incl.path ≠ sentinel) :
    (create_vpc home cwd v).payload = v.model_dump ∧
    dumpIncludePath (create_vpc home cwd v).payload =
      some (.str v.terragrunt.incl.path) ∧
    treeIncludePath (normalizedTree v.terragrunt) = some (.str sentinel) :=
  ⟨rfl, rfl, rfl⟩

/-- The scenario request of the spec's §8: an explicit `conf_path` and
`terraform.source`, everything else defaulted. -/
def scenarioJson : Json :=
  .obj
    [("conf_path", .str "/tmp/x.hcl"),
     ("terragrunt", .obj
        [("terraform", .obj
           [("source", .str "git::https://example.com/m.git?ref=v1.0.0")])])]

/-- The validated model of the scenario request. -/
def scenarioVPC : VPC :=
  ⟨"/tmp/x.hcl",
    ⟨⟨sentinel⟩,
      ⟨"git::https://example.com/m.git?ref=v1.0.0", [], [], [], []⟩,
      defaultInputs⟩⟩

set_option maxRecDepth 8192 in
/-- Claim C7: for the scenario request, validation succeeds, the response's
`hcl_path` is `"/tmp/x.hcl"`, the generated tree has an `include` block with
the sentinel path, a `terraform` block with the given source, an `inputs`
block carrying every declared default, and the `hcl` text is exactly the
rendering of those three blocks. -/
theorem claim_C7 (home cwd : String) :
    validateVPC scenarioJson = .ok scenarioVPC ∧
    (create_vpc home cwd scenarioVPC).hcl_path = "/tmp/x.hcl" ∧
    lookupKey (normalizedTree scenarioVPC.terragrunt) "include" =
      some (.obj [("path", .str "find_in_parent_folders()")]) ∧
    lookupKey (normalizedTree scenarioVPC.terragrunt) "terraform" =
      some (.obj
        [("source", .str "git::https://example.com/m.git?ref=v1.0.0"),
         ("include_in_copy", .arr []),
         ("extra_arguments", .arr []),
         ("before_hook", .arr []),
         ("after_hook", .arr [])]) ∧
    lookupKey (normalizedTree scenarioVPC.terragrunt) "inputs" =
      some (.obj
        [("vpc_name", .str "production-vpc"),
         ("vpc_cidr", .str "10.0.0.0/16"),
         ("enable_dns_support", .bool true),
         ("public_subnets", .arr [.str "10.0.1.0/24", .str "10.0.2.0/24"]),
         ("tags", .obj [("project", .str "web-app"), ("environment", .str "prod")])]) ∧
    (create_vpc home cwd scenarioVPC).hcl =
      "include \x7b\n  path = \"find_in_parent_folders()\"\n\x7d\n" ++
      "terraform \x7b\n  source = \"git::https://example.com/m.git?ref=v1.0.0\"\n" ++
      "  include_in_copy = []\n  extra_arguments = []\n  before_hook = []\n" ++
      "  after_hook = []\n\x7d\n" ++
      "inputs \x7b\n  vpc_name = \"production-vpc\"\n  vpc_cidr = \"10.0.0.0/16\"\n" ++
      "  enable_dns_support = true\n" ++
      "  public_subnets = [\"10.0.1.0/24\", \"10.0.2.0/24\"]\n" ++
      "  tags = \x7bproject = \"web-app\", environment = \"prod\"\x7d\n\x7d\n" :=
  ⟨rfl, rfl, rfl, rfl, rfl, rfl⟩

/-- A request whose `include.path` is an explicit (non-sentinel) path. -/
def vExplicitInclude : VPC :=
  ⟨"/tmp/x.hcl", ⟨⟨"../live/terragrunt.hcl"⟩, defaultTerraform, defaultInputs⟩⟩

/-- Claim C9, witness: for a concrete request with an explicit include path,
the echoed payload keeps that path while the generated tree carries the
sentinel. -/
theorem claim_C9_witness :
    (create_vpc "/home/user" "/srv" vExplicitInclude).payload =
      vExplicitInclude.model_dump ∧
    dumpIncludePath (create_vpc "/home/user" "/srv" vExplicitInclude).payload =
      some (.str vExplicitInclude.terragrunt.incl.path) ∧
    treeIncludePath (normalizedTree vExplicitInclude.terragrunt) =
      some (.str sentinel) :=
  claim_C9 "/home/user" "/srv" vExplicitInclude (by decide)

end HclApi
